import Mathlib

/-!
Verification development for the Cloud-Run Google-Drive transcriber pipeline.

The three stage handlers of the repository are embedded shallowly as pure
Lean functions.  Each handler takes an environment record that fixes the
outcome of every external call the JavaScript code awaits (listing,
download, job submission, metadata writes, mail delivery) together with the
data those calls would return, plus the persistent state the handler reads
(object metadata, the poll watermark).  A handler returns the new state, an
ordered trace of the side-effecting calls it issued, and the error it let
escape to its caller, if any.  Machine integers of the source are modelled
as Nat; timestamps are modelled as Nat instants; fractional seconds in the
Video Intelligence payload are dropped, which is invisible to every integer
computation the source performs on them (all go through Math.floor).
-/

/-! ## Small JavaScript-semantics helpers -/

/-- Truthiness of an optional string, as JavaScript sees it: present and
non-empty. -/
def jsTruthy : Option String → Bool
  | some s => s ≠ ""
  | none => false

/-- Setting one key of a GCS custom-metadata map (setMetadata merges keys). -/
def metaUpsert (m : List (String × String)) (k v : String) : List (String × String) :=
  (k, v) :: m.filter (fun p => p.1 ≠ k)

/-- Kernel-reducible lowercase map (String.toLower of the library goes
through position loops that the kernel cannot unfold). -/
def lowerStr (s : String) : String :=
  String.mk (s.data.map Char.toLower)

/-- Kernel-reducible endsWith. -/
def strEndsWith (s suffixStr : String) : Bool :=
  suffixStr.data.isSuffixOf s.data

/-- Kernel-reducible dropRight. -/
def strDropRight (s : String) (n : Nat) : String :=
  String.mk (s.data.take (s.data.length - n))

/-- Kernel-reducible trim: strips leading and trailing whitespace, as
JavaScript trim does on the characters these programs produce. -/
def trimChars (s : String) : String :=
  String.mk (((s.data.dropWhile Char.isWhitespace).reverse.dropWhile Char.isWhitespace).reverse)

/-- JavaScript name.substring(name.lastIndexOf(".")).toLowerCase(): the final
dot-suffix lowercased, or the whole name lowercased when no dot occurs
(lastIndexOf returns -1 and substring clamps it to 0). -/
def extOf (name : String) : String :=
  if name.data.contains '.' then
    lowerStr (String.mk ('.' :: (name.data.reverse.takeWhile (fun c => c ≠ '.')).reverse))
  else
    lowerStr name

/-- JavaScript name.replace(ending with .json, repl): replaces a final
".json" by repl, and leaves the name unchanged when the suffix is absent. -/
def jsonReplace (name repl : String) : String :=
  if strEndsWith name ".json" then strDropRight name 5 ++ repl else name

/-- toString().padStart(2, "0") on a Nat. -/
def pad2 (n : Nat) : String :=
  if n < 10 then "0" ++ toString n else toString n

/-- Array.join with a separator (kernel-reducible intercalate). -/
def joinSep (sep : String) : List String → String
  | [] => ""
  | [x] => x
  | x :: y :: xs => x ++ sep ++ joinSep sep (y :: xs)

/-! ## Transcription Output Record payload (Video Intelligence JSON)

Word time offsets are integer seconds; the source accepts both a
decimal-seconds string and a seconds+nanos pair and floors the value in
every arithmetic step, so only the integer part is observable. -/

structure SpeechWord where
  startTime : Option Nat
  endTime : Option Nat
deriving DecidableEq, Repr

structure SpeechAlternative where
  transcript : Option String
  words : List SpeechWord
deriving DecidableEq, Repr

structure SpeechTranscription where
  alternatives : List SpeechAlternative
deriving DecidableEq, Repr

structure AnnotationResult where
  speechTranscriptions : List SpeechTranscription
  segmentEndSeconds : Option Nat
deriving DecidableEq, Repr

structure TranscriptData where
  annotationResults : List AnnotationResult
deriving DecidableEq, Repr

/-- formatTime of the notifier: absent (falsy) input renders as 0:00, a
value renders as H:MM:SS with the hour omitted when zero. -/
def formatTime : Option Nat → String
  | none => "0:00"
  | some ts =>
    let hours := ts / 3600
    let minutes := (ts % 3600) / 60
    let seconds := ts % 60
    if hours > 0 then
      toString hours ++ ":" ++ pad2 minutes ++ ":" ++ pad2 seconds
    else
      toString minutes ++ ":" ++ pad2 seconds

/-- One loop iteration of formatTranscript: first alternative hypothesis,
skipped when the alternatives list or the trimmed text is empty; the
time label comes from the first and last word when words exist. -/
def segmentBlock (tr : SpeechTranscription) : Option String :=
  match tr.alternatives with
  | [] => none
  | alt :: _ =>
    match alt.transcript with
    | none => none
    | some t =>
      if trimChars t = "" then none
      else
        let st := match alt.words with
          | [] => "0:00"
          | w :: _ => formatTime w.startTime
        let en := match alt.words.getLast? with
          | none => "0:00"
          | some w => formatTime w.endTime
        some ("[" ++ st ++ " - " ++ en ++ "]\n" ++ trimChars t)

/-- formatTranscript of the notifier: blank-line-separated labelled blocks,
or none (a distinct no-speech state) when nothing yields text. -/
def formatTranscript (d : TranscriptData) : Option String :=
  match d.annotationResults with
  | [] => none
  | ar :: _ =>
    if ar.speechTranscriptions.isEmpty then none
    else
      let paragraphs := ar.speechTranscriptions.filterMap segmentBlock
      if paragraphs.isEmpty then none
      else some (joinSep "\n\n" paragraphs)

/-- getVideoDuration of the notifier. -/
def getVideoDuration (d : TranscriptData) : String :=
  match d.annotationResults with
  | [] => "Unknown"
  | ar :: _ =>
    match ar.segmentEndSeconds with
    | none => "Unknown"
    | some ts =>
      let hours := ts / 3600
      let minutes := (ts % 3600) / 60
      let seconds := ts % 60
      if hours > 0 then toString hours ++ " hr " ++ toString minutes ++ " min"
      else if minutes > 0 then toString minutes ++ " min " ++ toString seconds ++ " sec"
      else toString seconds ++ " sec"

/-! ## The timestamp-label strip and the word count

The notifier removes every occurrence of the pattern
left-bracket digits colon digits space dash space digits colon digits
right-bracket (the regex of the source), scanning left to right, then trims
and counts split(whitespace-runs) pieces. -/

/-- Consumes a maximal non-empty digit run; none if the run is empty. -/
def digits1 (cs : List Char) : Option (List Char) :=
  if (cs.takeWhile Char.isDigit).isEmpty then none
  else some (cs.dropWhile Char.isDigit)

/-- Tries to consume one expected literal character. -/
def expectCh (e : Char) : List Char → Option (List Char)
  | c :: cs => if c = e then some cs else none
  | [] => none

/-- Matches one full timestamp label at the head of the character list and
returns the remainder; each successful step consumes at least the opening
bracket, so the remainder is strictly shorter than the input. -/
def matchLabel : List Char → Option (List Char)
  | '[' :: r0 =>
    (digits1 r0).bind fun r1 =>
    (expectCh ':' r1).bind fun r2 =>
    (digits1 r2).bind fun r3 =>
    (expectCh ' ' r3).bind fun r4 =>
    (expectCh '-' r4).bind fun r5 =>
    (expectCh ' ' r5).bind fun r6 =>
    (digits1 r6).bind fun r7 =>
    (expectCh ':' r7).bind fun r8 =>
    (digits1 r8).bind fun r9 =>
    (expectCh ']' r9).map fun r10 => r10
  | _ => none

/-- Fuelled global-replace scan; every step strictly shrinks the character
list, so fuel equal to the length plus one is always sufficient and the
fuel-exhausted branch is unreachable. -/
def stripGo : Nat → List Char → List Char
  | 0, cs => cs
  | Nat.succ n, cs =>
    match cs with
    | [] => []
    | c :: rest =>
      match matchLabel cs with
      | some remainder => stripGo n remainder
      | none => c :: stripGo n rest

/-- The global timestamp-label replace of the notifier. -/
def stripLabels (s : String) : String :=
  String.mk (stripGo (s.length + 1) s.data)

/-- Counts maximal non-whitespace runs; the flag records being inside a run. -/
def wordsCountGo : List Char → Bool → Nat
  | [], _ => 0
  | c :: cs, inWord =>
    if Char.isWhitespace c then wordsCountGo cs false
    else (if inWord then 0 else 1) + wordsCountGo cs true

/-- Number of maximal non-whitespace runs of a string. -/
def wordsCount (s : String) : Nat :=
  wordsCountGo s.data false

/-- JavaScript trimmed.split(whitespace-run regex).length: the empty string
splits to one (empty) piece, a trimmed non-empty string splits to exactly
its words. -/
def jsWordCount (s : String) : Nat :=
  if s = "" then 1 else wordsCount s

example : stripLabels "[0:00 - 0:05]\nhello world" = "\nhello world" := by decide
example : stripLabels "[1:02:05 - 1:03:00]\nx" = "[1:02:05 - 1:03:00]\nx" := by decide
example : formatTime (some 0) = "0:00" := by decide
example : formatTime (some 65) = "1:05" := by decide
example : formatTime (some 3725) = "1:02:05" := by decide
example : formatTime none = "0:00" := by decide
example : jsWordCount "" = 1 := by decide
example : jsWordCount "one two  three" = 3 := by decide

/-! ## Transcription Stage (the transcribeAudio cloud-event handler)

The environment fixes the outcome of every awaited external call: the
metadata read (the one call issued before the try block, whose error would
escape the handler), the annotateVideo submission, the setMetadata marker
write, and whether the mail credentials are configured.  The trace records
the side-effecting calls in the order the handler issues them. -/

def VIDEO_EXTENSIONS : List String :=
  [".mp4", ".mov", ".avi", ".mkv", ".webm", ".m4v", ".wmv", ".flv"]

structure WorkingRecord where
  name : String
  meta : List (String × String)
deriving DecidableEq, Repr

inductive TEffect where
  | submit (inputUri outputUri : String)
  | setMarker (value : String)
  | email (subject text : String)
  | logErr
deriving DecidableEq, Repr

structure TEnv where
  metaReadOk : Bool
  submitOk : Bool
  markerOk : Bool
  credsPresent : Bool
  now : String
deriving Repr

structure TResult where
  record : WorkingRecord
  trace : List TEffect
  uncaughtError : Option String
deriving Repr

/-- Body of the started-notification mail of the transcriber. -/
def startedEmailText (name : String) : String :=
  "Processing file: " ++ name ++ "\nWe\x27ll notify you when it\x27s done."

/-- The transcribeAudio handler.  Guards run in source order: missing event
fields, the video-extension allow-list, then the idempotency check; the try
block submits the job, writes the transcriptionStarted marker only after a
successful submission, sends the started mail only after a successful
marker write, and its catch only logs. -/
def transcribeAudio (env : TEnv) (transcriptBucket bucket : String)
    (rec : WorkingRecord) : TResult :=
  if rec.name = "" ∨ bucket = "" then ⟨rec, [], none⟩
  else if ¬ (VIDEO_EXTENSIONS.contains (extOf rec.name) = true) then ⟨rec, [], none⟩
  else if ¬ (env.metaReadOk = true) then ⟨rec, [], some "metadata read failed"⟩
  else if (List.lookup "transcriptionStarted" rec.meta).isSome then ⟨rec, [], none⟩
  else
    let gcsUri := "gs://" ++ bucket ++ "/" ++ rec.name
    let outputUri := "gs://" ++ transcriptBucket ++ "/" ++ rec.name ++ ".json"
    if env.submitOk then
      if env.markerOk then
        let rec2 := { rec with meta := metaUpsert rec.meta "transcriptionStarted" env.now }
        let emails := if env.credsPresent then
            [TEffect.email "Transcription Started" (startedEmailText rec.name)]
          else []
        ⟨rec2, TEffect.submit gcsUri outputUri :: TEffect.setMarker env.now :: emails, none⟩
      else
        ⟨rec, [TEffect.submit gcsUri outputUri, TEffect.logErr], none⟩
    else
      ⟨rec, [TEffect.submit gcsUri outputUri, TEffect.logErr], none⟩

/-- Discriminator for submission calls. -/
def isSubmit : TEffect → Bool
  | TEffect.submit _ _ => true
  | _ => false

/-- Discriminator for marker writes. -/
def isSetMarker : TEffect → Bool
  | TEffect.setMarker _ => true
  | _ => false

/-- Discriminator for mail sends. -/
def isEmail : TEffect → Bool
  | TEffect.email _ _ => true
  | _ => false

/-- Number of transcription submission calls in a trace. -/
def submitCount (tr : List TEffect) : Nat := tr.countP isSubmit

/-- Number of metadata marker writes in a trace. -/
def markerCount (tr : List TEffect) : Nat := tr.countP isSetMarker

/-- Number of mail sends in a trace. -/
def emailCount (tr : List TEffect) : Nat := tr.countP isEmail

/-! ## Folder Scanner (the pollDrive HTTP handler of the drive-poller)

The stored watermark is the drive-poller-state.json value; none models a
missing state file, which getLastCheckTime replaces by a default lookback
instant (state-read failures take the same default).  The environment holds
the outcome of the folder listing and, per file id, of the streaming
transfer; the file list is the query result. -/

def MAX_VIDEO_DURATION_MS : Nat := 3 * 60 * 60 * 1000

structure PollFile where
  id : String
  name : String
  createdTime : Nat
  durationMillis : Option Nat
  parents : List String
deriving DecidableEq, Repr

inductive PEffect where
  | download (id name bucket : String)
  | saveState (t : Nat)
  | logErr
deriving DecidableEq, Repr

structure PollEnv where
  folderId : Option String
  destBucket : Option String
  listOk : Bool
  files : List PollFile
  transferOk : String → Bool
  defaultLookback : Nat

structure PollResult where
  stored : Option Nat
  trace : List PEffect
  status : Nat
deriving Repr

/-- The duration policy filter of the poller: a declared duration strictly
above the ceiling. -/
def overLimit (f : PollFile) : Bool :=
  f.durationMillis.isSome && decide (f.durationMillis.getD 0 > MAX_VIDEO_DURATION_MS)

/-- State of the per-file loop of pollDrive: newest creation time seen,
effects issued, and whether the loop ran to completion. -/
structure PollScan where
  newest : Nat
  trace : List PEffect
  ok : Bool
deriving DecidableEq, Repr

/-- The per-file loop of pollDrive: an over-limit file only advances the
newest time seen; any other file is downloaded and, on success, advances
the newest time; a failed transfer aborts the loop. -/
def pollLoop (tok : String → Bool) (bucket : String) :
    List PollFile → Nat → PollScan
  | [], newest => ⟨newest, [], true⟩
  | f :: fs, newest =>
    if overLimit f then
      pollLoop tok bucket fs (if f.createdTime > newest then f.createdTime else newest)
    else if tok f.id then
      PollScan.mk
        (pollLoop tok bucket fs
          (if f.createdTime > newest then f.createdTime else newest)).newest
        (PEffect.download f.id f.name bucket ::
          (pollLoop tok bucket fs
            (if f.createdTime > newest then f.createdTime else newest)).trace)
        (pollLoop tok bucket fs
          (if f.createdTime > newest then f.createdTime else newest)).ok
    else
      ⟨newest, [PEffect.download f.id f.name bucket], false⟩

/-- The pollDrive handler: missing configuration or a failed listing is
caught by the outer catch and answered 500 with the watermark untouched; an
empty result answers 200 without touching the state file; otherwise the
loop runs and only a fully successful pass saves the new watermark. -/
def pollDrive (env : PollEnv) (stored : Option Nat) : PollResult :=
  if env.folderId.isNone ∨ env.destBucket.isNone then ⟨stored, [PEffect.logErr], 500⟩
  else if ¬ (env.listOk = true) then ⟨stored, [PEffect.logErr], 500⟩
  else if env.files.isEmpty then ⟨stored, [], 200⟩
  else if (pollLoop env.transferOk (env.destBucket.getD "") env.files
      (stored.getD env.defaultLookback)).ok then
    ⟨some (pollLoop env.transferOk (env.destBucket.getD "") env.files
        (stored.getD env.defaultLookback)).newest,
      (pollLoop env.transferOk (env.destBucket.getD "") env.files
        (stored.getD env.defaultLookback)).trace ++
        [PEffect.saveState (pollLoop env.transferOk (env.destBucket.getD "") env.files
          (stored.getD env.defaultLookback)).newest], 200⟩
  else
    ⟨stored, (pollLoop env.transferOk (env.destBucket.getD "") env.files
      (stored.getD env.defaultLookback)).trace ++ [PEffect.logErr], 500⟩

/-- The maximum of a base instant and the creation times of a file list. -/
def scanFold (t : Nat) (fs : List PollFile) : Nat :=
  fs.foldl (fun acc f => max acc f.createdTime) t

/-! ## Analysis & Notification Stage (the sendNotification cloud-event handler)

The environment fixes the outcome and payload of every awaited external
call: the metadata read, the Output Record download and its parsed JSON,
the two GCS configuration reads (none models a missing object, whose
download rejection the source catches), the folder-convention prompt the
Drive search would return, the model call, the artifact save, the mail
transport, and the source-object delete.  The whole handler body runs
inside one try whose catch only logs, so no modelled failure escapes. -/

def DEFAULT_MODEL : String := "gemini-2.5-flash"

structure OutputRecord where
  name : String
  bucket : String
  meta : List (String × String)
deriving DecidableEq, Repr

inductive NEffect where
  | artifactWrite (name content : String)
  | driveSearch (rootFolderId : String)
  | analysisCall (prompt modelId : String)
  | emailSend (subject text : String) (attachments : List String)
  | setMarker (value : String)
  | deleteSource (bucket name : String)
  | logErr
  | logWarn
deriving DecidableEq, Repr

structure NEnv where
  metaReadOk : Bool
  downloadOk : Bool
  transcriptData : TranscriptData
  gcsPrompt : Option String
  gcsModel : Option String
  folderId : Option String
  drivePrompt : Option String
  analysisOk : Bool
  analysisResult : String
  analysisErrMsg : String
  transcriptBucket : Option String
  credsPresent : Bool
  sendOk : Bool
  dashboardUrl : Option String
  inputBucket : Option String
  deleteOk : Bool
  saveOk : Bool
  now : String
deriving Repr

structure NResult where
  record : OutputRecord
  trace : List NEffect
  uncaughtError : Option String
deriving Repr

/-- The 55-character box line used by every artifact and mail section. -/
def sepBar : String := String.mk (List.replicate 55 '═')

/-- Model selection: the dashboard-configured value when its trimmed content
is non-empty, else the fixed default. -/
def resolveModel : Option String → String
  | some m => if trimChars m = "" then DEFAULT_MODEL else trimChars m
  | none => DEFAULT_MODEL

/-- Prompt resolution with its trace: the trimmed GCS override when
non-empty; otherwise the Drive folder-convention search, consulted only
when FOLDER_ID is set; otherwise nothing. -/
def resolvePrompt (env : NEnv) : Option String × List NEffect :=
  match env.gcsPrompt with
  | some p =>
    if trimChars p = "" then
      match env.folderId with
      | some fid => (env.drivePrompt, [NEffect.driveSearch fid])
      | none => (none, [])
    else (some (trimChars p), [])
  | none =>
    match env.folderId with
    | some fid => (env.drivePrompt, [NEffect.driveSearch fid])
    | none => (none, [])

/-- The configuration-and-analysis try block of the handler: resolves the
model and the prompt, invokes the model call when a truthy prompt resolved,
and converts a failed call into the visible error string; returns the
analysis text, the selected model, and the effects issued. -/
def analysisPhase (env : NEnv) : Option String × String × List NEffect :=
  let model := resolveModel env.gcsModel
  let res := resolvePrompt env
  match res.1 with
  | some p =>
    if p ≠ "" then
      if env.analysisOk then
        (some env.analysisResult, model, res.2 ++ [NEffect.analysisCall p model])
      else
        (some ("[Error during AI Analysis: " ++ env.analysisErrMsg ++ "]"), model,
          res.2 ++ [NEffect.analysisCall p model])
    else (none, model, res.2)
  | none => (none, model, res.2)

/-- The SYSTEM INFO section appended to every delivered mail body. -/
def sysInfoSection (env : NEnv) (modelName : String) : String :=
  "\n" ++ sepBar ++ "\n" ++ "SYSTEM INFO\n" ++ sepBar ++ "\n\n" ++
  (if modelName ≠ "" then "AI Model used: " ++ modelName ++ "\n" else "") ++
  (if jsTruthy env.dashboardUrl then "Dashboard: " ++ env.dashboardUrl.getD "" ++ "\n"
   else "Dashboard: (URL not configured)\n")

/-- The attachment name list of sendMail: the transcript file when content
and name are truthy, then the analysis file under the same check. -/
def emailAtts (transcriptContent tName : String)
    (aPair : Option (String × String)) : List String :=
  (if transcriptContent ≠ "" ∧ tName ≠ "" then [tName] else []) ++
  (match aPair with
   | some pr => if pr.2 ≠ "" ∧ pr.1 ≠ "" then [pr.1] else []
   | none => [])

/-- sendEmailOrSMS: a logged no-op returning normally when any credential is
unset; otherwise one sendMail invocation whose success is the environment
outcome. -/
def sendEmailOrSMS (env : NEnv) (subject text transcriptContent tName : String)
    (aPair : Option (String × String)) (modelName : String) : List NEffect × Bool :=
  if ¬ (env.credsPresent = true) then ([], true)
  else
    ([NEffect.emailSend subject (text ++ sysInfoSection env modelName)
        (emailAtts transcriptContent tName aPair)], env.sendOk)

/-- Artifact header shared by the transcript and analysis records. -/
def artifactHeader (base dur now : String) : String :=
  "Video: " ++ base ++ "\n" ++ "Duration: " ++ dur ++ "\n" ++
  "Processed: " ++ now ++ "\n\n"

/-- The insufficient-data transcript artifact body. -/
def insufficientTranscriptContent (base dur now : String) (n : Nat) : String :=
  artifactHeader base dur now ++ sepBar ++ "\n" ++
  "TRANSCRIPT STATUS: INSUFFICIENT DATA\n" ++ sepBar ++ "\n\n" ++
  "No significant speech detected in this video (" ++ toString n ++ " words)."

/-- The insufficient-data mail body. -/
def insufficientEmailBody (base dur : String) (n : Nat) : String :=
  "Your video \"" ++ base ++ "\" has been processed.\n\n" ++
  "Video Duration: " ++ dur ++ "\n\n" ++
  "Status: No significant speech detected (" ++ toString n ++ " words).\n" ++
  "AI analysis was skipped because there is not enough content to analyze.\n\n" ++
  "This could be because the video is silent, the audio is unclear, or the speech is very brief."

/-- The normal transcript artifact body. -/
def normalTranscriptContent (base dur now formatted : String) : String :=
  artifactHeader base dur now ++ sepBar ++ "\n" ++ "TRANSCRIPT\n" ++ sepBar ++
  "\n\n" ++ formatted

/-- The analysis artifact body. -/
def analysisContentOf (base dur now text : String) : String :=
  artifactHeader base dur now ++ sepBar ++ "\n" ++ "AI ANALYSIS\n" ++ sepBar ++
  "\n\n" ++ text

/-- The normal mail body, with the analysis section present only when
analysis text was produced. -/
def normalEmailBody (env : NEnv) (base dur fileName : String)
    (analysisText : Option String) : String :=
  let gcsLink := "https://storage.cloud.google.com/" ++
    (if jsTruthy env.transcriptBucket then env.transcriptBucket.getD "" else "BUCKET_UNKNOWN") ++
    "/" ++ fileName
  "Your video \"" ++ base ++ "\" has been processed!\n\n" ++
  "Video Duration: " ++ dur ++ "\n\n" ++
  "The transcript and AI analysis are attached to this email.\n\n" ++
  (if jsTruthy analysisText then
     sepBar ++ "\n" ++ "AI ANALYSIS\n" ++ sepBar ++ "\n\n" ++ analysisText.getD "" ++ "\n\n"
   else "") ++
  sepBar ++ "\n" ++ "LINKS\n" ++ sepBar ++ "\n\n" ++
  "Raw JSON: " ++ gcsLink ++ "\n\n" ++
  "To view the full transcript or analysis, open the attached files."

/-- The tail of the handler shared by both branches (source lines from the
artifact names onward): save the transcript, save the analysis only when
analysis text was produced, send, mark notificationSent only after a
successful send, then best-effort delete of the source video. -/
def finishStage (env : NEnv) (rec : OutputRecord)
    (base dur subject emailBody transcriptContent : String)
    (analysisText : Option String) (model : String) (pre : List NEffect) : NResult :=
  let tName := jsonReplace rec.name "_TRANSCRIPT.txt"
  let aPair : Option (String × String) :=
    if jsTruthy analysisText then
      some (jsonReplace rec.name "_ANALYSIS.txt",
        analysisContentOf base dur env.now (analysisText.getD ""))
    else none
  let t1 := pre ++ [NEffect.artifactWrite tName transcriptContent]
  if ¬ (env.saveOk = true) then ⟨rec, t1 ++ [NEffect.logErr], none⟩
  else
    let t2 := t1 ++ (match aPair with
      | some pr => [NEffect.artifactWrite pr.1 pr.2]
      | none => [])
    let sendRes := sendEmailOrSMS env subject emailBody transcriptContent tName aPair model
    let t3 := t2 ++ sendRes.1
    if ¬ (sendRes.2 = true) then ⟨rec, t3 ++ [NEffect.logErr], none⟩
    else
      let rec2 := { rec with meta := metaUpsert rec.meta "notificationSent" env.now }
      let t4 := t3 ++ [NEffect.setMarker env.now]
      match env.inputBucket with
      | none => ⟨rec2, t4, none⟩
      | some b =>
        if env.deleteOk then ⟨rec2, t4 ++ [NEffect.deleteSource b base], none⟩
        else ⟨rec2, t4 ++ [NEffect.deleteSource b base, NEffect.logWarn], none⟩

/-- The speechOnly value of the sufficiency gate: the formatted transcript
with timestamp labels removed and trimmed, or the empty string when the
transcript is absent. -/
def speechOnlyOf (d : TranscriptData) : String :=
  match formatTranscript d with
  | some t => trimChars (stripLabels t)
  | none => ""

/-- The isInsufficient gate of the handler: transcript absent (falsy) or
split-piece count below ten. -/
def isInsufficient (d : TranscriptData) : Bool :=
  (formatTranscript d).isNone || decide (jsWordCount (speechOnlyOf d) < 10)

/-- The sendNotification handler.  The suffix filter runs before the try
block; inside it: idempotency check, download, formatting, the sufficiency
gate, then either the insufficient-data branch or the analysis branch, and
the shared artifact-send-marker-cleanup tail. -/
def sendNotification (env : NEnv) (rec : OutputRecord) : NResult :=
  if ¬ (strEndsWith rec.name ".json" = true) then ⟨rec, [], none⟩
  else if ¬ (env.metaReadOk = true) then ⟨rec, [NEffect.logErr], none⟩
  else if (List.lookup "notificationSent" rec.meta).isSome then ⟨rec, [], none⟩
  else if ¬ (env.downloadOk = true) then ⟨rec, [NEffect.logErr], none⟩
  else if isInsufficient env.transcriptData then
    finishStage env rec (jsonReplace rec.name "") (getVideoDuration env.transcriptData)
      ("Transcript Empty / Failed: " ++ jsonReplace rec.name "")
      (insufficientEmailBody (jsonReplace rec.name "") (getVideoDuration env.transcriptData)
        (jsWordCount (speechOnlyOf env.transcriptData)))
      (insufficientTranscriptContent (jsonReplace rec.name "")
        (getVideoDuration env.transcriptData) env.now
        (jsWordCount (speechOnlyOf env.transcriptData)))
      none DEFAULT_MODEL []
  else
    finishStage env rec (jsonReplace rec.name "") (getVideoDuration env.transcriptData)
      ("[Drive Automation] Analysis & Transcript: " ++ jsonReplace rec.name "")
      (normalEmailBody env (jsonReplace rec.name "") (getVideoDuration env.transcriptData)
        rec.name (analysisPhase env).1)
      (normalTranscriptContent (jsonReplace rec.name "")
        (getVideoDuration env.transcriptData) env.now
        ((formatTranscript env.transcriptData).getD ""))
      (analysisPhase env).1 (analysisPhase env).2.1 (analysisPhase env).2.2

/-- Discriminator for artifact saves. -/
def isWrite : NEffect → Bool
  | NEffect.artifactWrite _ _ => true
  | _ => false

/-- Discriminator for mail sends. -/
def isSend : NEffect → Bool
  | NEffect.emailSend _ _ _ => true
  | _ => false

/-- Discriminator for notificationSent marker writes. -/
def isNMarker : NEffect → Bool
  | NEffect.setMarker _ => true
  | _ => false

/-- Discriminator for source-object deletions. -/
def isDelete : NEffect → Bool
  | NEffect.deleteSource _ _ => true
  | _ => false

/-- Discriminator for Drive folder-convention prompt searches. -/
def isDriveSearch : NEffect → Bool
  | NEffect.driveSearch _ => true
  | _ => false

/-- Number of artifact saves in a trace. -/
def writeCount (tr : List NEffect) : Nat := tr.countP isWrite

/-- Number of mail sends in a trace. -/
def sendCount (tr : List NEffect) : Nat := tr.countP isSend

/-- Number of notificationSent marker writes in a trace. -/
def nMarkerCount (tr : List NEffect) : Nat := tr.countP isNMarker

/-- Number of source-object deletions in a trace. -/
def deleteCount (tr : List NEffect) : Nat := tr.countP isDelete

/-- Number of Drive folder-convention prompt searches in a trace. -/
def driveSearchCount (tr : List NEffect) : Nat := tr.countP isDriveSearch

/-- The prompt-model pair of a model invocation effect. -/
def callOf : NEffect → Option (String × String)
  | NEffect.analysisCall p m => some (p, m)
  | _ => none

/-- The model invocations of a trace, as prompt-model pairs in order. -/
def analysisCalls (tr : List NEffect) : List (String × String) := tr.filterMap callOf

/-! ## Concrete fixtures used by witnesses and counterexamples -/

/-- A fresh video Working Record, no marker. -/
def recFresh : WorkingRecord := ⟨"demo.mp4", []⟩

/-- A Working Record already bearing the transcriptionStarted marker. -/
def recMarked : WorkingRecord := ⟨"demo.mp4", [("transcriptionStarted", "T1")]⟩

/-- A transcriber environment where every call succeeds. -/
def tenvOk : TEnv := ⟨true, true, true, true, "T2"⟩

/-- A transcriber environment where the annotateVideo submission fails. -/
def tenvSubmitFail : TEnv := ⟨true, false, true, true, "T2"⟩

/-! ## Transcription Stage lemmas -/

/-- Any single invocation issues at most one submission call. -/
theorem submitCount_le_one (env : TEnv) (tb b : String) (rec : WorkingRecord) :
    submitCount (transcribeAudio env tb b rec).trace ≤ 1 := by
  unfold transcribeAudio
  split_ifs <;>
    simp [submitCount, isSubmit, List.countP_cons, apply_ite (List.countP isSubmit)]

/-- With the marker present on entry the handler issues nothing and leaves
the record unchanged. -/
theorem transcribe_skip_of_marker (env : TEnv) (tb b : String) (rec : WorkingRecord)
    (hmk : (List.lookup "transcriptionStarted" rec.meta).isSome = true) :
    (transcribeAudio env tb b rec).trace = [] ∧
    (transcribeAudio env tb b rec).record = rec := by
  unfold transcribeAudio
  split_ifs with h1 h2 h3 <;> exact ⟨rfl, rfl⟩

/-- C1: on a video-named Working Record whose metadata already carries the
transcriptionStarted marker at entry, the Transcription Stage handler exits
with no submission call, no metadata write and no mail; across two
invocations where the marker is present on entry to the second, at most one
submission call is ever issued. -/
theorem transcription_stage_marker_skip (env env2 : TEnv) (tb tb2 b b2 : String)
    (rec rec2 : WorkingRecord)
    (hmk : (List.lookup "transcriptionStarted" rec2.meta).isSome = true) :
    (transcribeAudio env2 tb2 b2 rec2).trace = [] ∧
    (transcribeAudio env2 tb2 b2 rec2).record = rec2 ∧
    submitCount (transcribeAudio env tb b rec).trace +
      submitCount (transcribeAudio env2 tb2 b2 rec2).trace ≤ 1 := by
  obtain ⟨h1, h2⟩ := transcribe_skip_of_marker env2 tb2 b2 rec2 hmk
  refine ⟨h1, h2, ?_⟩
  rw [h1]
  simpa [submitCount] using submitCount_le_one env tb b rec

/-- Witness for C1 at concrete records: the second invocation sees the
marker and the pair issues at most one submission. -/
theorem transcription_stage_marker_skip_witness :
    (transcribeAudio tenvOk "tb" "in-bucket" recMarked).trace = [] ∧
    (transcribeAudio tenvOk "tb" "in-bucket" recMarked).record = recMarked ∧
    submitCount (transcribeAudio tenvOk "tb" "in-bucket" recFresh).trace +
      submitCount (transcribeAudio tenvOk "tb" "in-bucket" recMarked).trace ≤ 1 :=
  transcription_stage_marker_skip tenvOk tenvOk "tb" "tb" "in-bucket" "in-bucket"
    recFresh recMarked (by decide)

/-- Trace of one run on an unmarked video record: the submission first,
then the branch fixed by the environment outcomes. -/
theorem transcribeAudio_unmarked_trace (env : TEnv) (tb b : String)
    (rec : WorkingRecord)
    (hname : ¬ rec.name = "") (hb : ¬ b = "")
    (hvid : VIDEO_EXTENSIONS.contains (extOf rec.name) = true)
    (hmeta : env.metaReadOk = true)
    (hmk : List.lookup "transcriptionStarted" rec.meta = none) :
    (transcribeAudio env tb b rec).trace =
      TEffect.submit ("gs://" ++ b ++ "/" ++ rec.name)
          ("gs://" ++ tb ++ "/" ++ rec.name ++ ".json") ::
        (if env.submitOk then
           (if env.markerOk then
              TEffect.setMarker env.now ::
                (if env.credsPresent then
                   [TEffect.email "Transcription Started" (startedEmailText rec.name)]
                 else [])
            else [TEffect.logErr])
         else [TEffect.logErr]) := by
  unfold transcribeAudio
  simp only [hname, hb, hvid, hmeta, hmk, Option.isSome_none, or_self, if_false,
    Bool.false_eq_true, not_true, not_false_iff, if_true, if_neg, ite_false]
  split_ifs <;> rfl

/-- On a failed submission the unmarked run logs, writes no marker, sends
no mail and leaves the record unchanged. -/
theorem transcribeAudio_submit_fail (env : TEnv) (tb b : String)
    (rec : WorkingRecord)
    (hname : ¬ rec.name = "") (hb : ¬ b = "")
    (hvid : VIDEO_EXTENSIONS.contains (extOf rec.name) = true)
    (hmeta : env.metaReadOk = true)
    (hmk : List.lookup "transcriptionStarted" rec.meta = none)
    (hs : env.submitOk = false) :
    (transcribeAudio env tb b rec).trace =
      [TEffect.submit ("gs://" ++ b ++ "/" ++ rec.name)
          ("gs://" ++ tb ++ "/" ++ rec.name ++ ".json"), TEffect.logErr] ∧
    markerCount (transcribeAudio env tb b rec).trace = 0 ∧
    emailCount (transcribeAudio env tb b rec).trace = 0 ∧
    (transcribeAudio env tb b rec).record = rec := by
  refine ⟨?_, ?_, ?_, ?_⟩
  · rw [transcribeAudio_unmarked_trace env tb b rec hname hb hvid hmeta hmk, hs]
    rfl
  · rw [markerCount, transcribeAudio_unmarked_trace env tb b rec hname hb hvid hmeta hmk, hs]
    rfl
  · rw [emailCount, transcribeAudio_unmarked_trace env tb b rec hname hb hvid hmeta hmk, hs]
    rfl
  · unfold transcribeAudio
    simp [hname, hb, hvid, hmeta, hmk, hs]
    split_ifs <;> rfl

/-- C3: on an unmarked video Working Record the effects of one run occur in
strict order: the submission call first; the transcriptionStarted marker
write only after a successful submission; the started mail only after a
successful marker write; and on a failed submission neither the marker
write nor the mail occurs and the record is unchanged. -/
theorem transcription_stage_effect_order (env : TEnv) (tb b : String)
    (rec : WorkingRecord)
    (hname : ¬ rec.name = "") (hb : ¬ b = "")
    (hvid : VIDEO_EXTENSIONS.contains (extOf rec.name) = true)
    (hmeta : env.metaReadOk = true)
    (hmk : List.lookup "transcriptionStarted" rec.meta = none) :
    (transcribeAudio env tb b rec).trace =
      TEffect.submit ("gs://" ++ b ++ "/" ++ rec.name)
          ("gs://" ++ tb ++ "/" ++ rec.name ++ ".json") ::
        (if env.submitOk then
           (if env.markerOk then
              TEffect.setMarker env.now ::
                (if env.credsPresent then
                   [TEffect.email "Transcription Started" (startedEmailText rec.name)]
                 else [])
            else [TEffect.logErr])
         else [TEffect.logErr]) ∧
    (env.submitOk = false →
      markerCount (transcribeAudio env tb b rec).trace = 0 ∧
      emailCount (transcribeAudio env tb b rec).trace = 0 ∧
      (transcribeAudio env tb b rec).record = rec) :=
  ⟨transcribeAudio_unmarked_trace env tb b rec hname hb hvid hmeta hmk,
   fun hs => (transcribeAudio_submit_fail env tb b rec hname hb hvid hmeta hmk hs).2⟩

/-- Witness for C3: the all-success environment on a fresh record. -/
theorem transcription_stage_effect_order_witness :
    (transcribeAudio tenvOk "tb" "in-bucket" recFresh).trace =
      TEffect.submit ("gs://" ++ "in-bucket" ++ "/" ++ recFresh.name)
          ("gs://" ++ "tb" ++ "/" ++ recFresh.name ++ ".json") ::
        (if tenvOk.submitOk then
           (if tenvOk.markerOk then
              TEffect.setMarker tenvOk.now ::
                (if tenvOk.credsPresent then
                   [TEffect.email "Transcription Started" (startedEmailText recFresh.name)]
                 else [])
            else [TEffect.logErr])
         else [TEffect.logErr]) ∧
    (tenvOk.submitOk = false →
      markerCount (transcribeAudio tenvOk "tb" "in-bucket" recFresh).trace = 0 ∧
      emailCount (transcribeAudio tenvOk "tb" "in-bucket" recFresh).trace = 0 ∧
      (transcribeAudio tenvOk "tb" "in-bucket" recFresh).record = recFresh) :=
  transcription_stage_effect_order tenvOk "tb" "in-bucket" recFresh
    (by decide) (by decide) (by decide) rfl rfl

/-! ## Notifier fixtures -/

/-- A Video Intelligence payload with one sufficient transcription segment
spanning 0 to 95 seconds. -/
def dataDemo : TranscriptData :=
  ⟨[⟨[⟨[⟨some "hello there everyone this is a longer test transcript now",
        [⟨some 0, some 5⟩, ⟨some 90, some 95⟩]⟩]⟩], some 95⟩]⟩

/-- A payload with no transcription segments (a silent video). -/
def dataSilent : TranscriptData := ⟨[⟨[], some 10⟩]⟩

/-- An Output Record with the expected suffix and no marker. -/
def recNJson : OutputRecord := ⟨"demo.mp4.json", "tb", []⟩

/-- An Output Record already bearing the notificationSent marker. -/
def recNMarked : OutputRecord := ⟨"demo.mp4.json", "tb", [("notificationSent", "T1")]⟩

/-- A notifier environment where every call succeeds: a central prompt is
configured, no model override, credentials present. -/
def nenvOk : NEnv :=
  { metaReadOk := true, downloadOk := true, transcriptData := dataDemo,
    gcsPrompt := some " Summarize. ", gcsModel := none, folderId := some "root",
    drivePrompt := some "DrivePrompt", analysisOk := true,
    analysisResult := "An analysis.", analysisErrMsg := "boom",
    transcriptBucket := some "tb", credsPresent := true, sendOk := true,
    dashboardUrl := none, inputBucket := some "in-bucket", deleteOk := true,
    saveOk := true, now := "T2" }

/-- The all-success environment with a failing transcript download. -/
def nenvDownloadFail : NEnv := { nenvOk with downloadOk := false }

/-! ## C4: error propagation out of the stage handlers -/

/-- The shared stage tail never lets an error escape. -/
theorem finishStage_never_throws (env : NEnv) (rec : OutputRecord)
    (base dur subject ebody tc : String) (analysisText : Option String)
    (model : String) (pre : List NEffect) :
    (finishStage env rec base dur subject ebody tc analysisText model pre).uncaughtError = none := by
  unfold finishStage
  cases hb : env.inputBucket <;> cases hc : env.credsPresent <;>
    simp [sendEmailOrSMS, hb, hc] <;> split_ifs <;> rfl

/-- The notifier handler never lets an error escape: its whole body runs in
a try whose catch only logs. -/
theorem sendNotification_never_throws (env : NEnv) (rec : OutputRecord) :
    (sendNotification env rec).uncaughtError = none := by
  unfold sendNotification
  split_ifs <;> first | rfl | apply finishStage_never_throws

/-- The transcriber handler lets no error escape once the metadata read
(the only call outside its try block) has succeeded. -/
theorem transcribeAudio_throws_iff (env : TEnv) (tb b : String) (rec : WorkingRecord)
    (hmeta : env.metaReadOk = true) :
    (transcribeAudio env tb b rec).uncaughtError = none := by
  unfold transcribeAudio
  split_ifs <;> simp_all

/-- C4 counterexample: the submission call fails on an unmarked video
record (and the transcript download fails on an unmarked Output Record),
yet both handlers return normally, with no uncaught error for the trigger
to retry on; the errors are only logged. -/
theorem upstream_error_not_propagated_cex :
    List.lookup "transcriptionStarted" recFresh.meta = none ∧
    VIDEO_EXTENSIONS.contains (extOf recFresh.name) = true ∧
    tenvSubmitFail.submitOk = false ∧
    (transcribeAudio tenvSubmitFail "tb" "in-bucket" recFresh).uncaughtError = none ∧
    (transcribeAudio tenvSubmitFail "tb" "in-bucket" recFresh).trace =
      [TEffect.submit "gs://in-bucket/demo.mp4" "gs://tb/demo.mp4.json", TEffect.logErr] ∧
    nenvDownloadFail.downloadOk = false ∧
    List.lookup "notificationSent" recNJson.meta = none ∧
    (sendNotification nenvDownloadFail recNJson).uncaughtError = none ∧
    (sendNotification nenvDownloadFail recNJson).trace = [NEffect.logErr] := by
  decide

/-- C4 amended: a genuine upstream failure after the idempotency check (a
failed submission in the Transcription Stage; a failed download, artifact
write or mail send in the Analysis and Notification Stage) is caught by the
stage-level catch: the handler logs the error and returns normally without
writing the marker, and no error propagates to the trigger; only a failure
of the transcriber metadata read, issued before its try block, escapes. -/
theorem stage_errors_logged_not_propagated (env : TEnv) (tb b : String)
    (rec : WorkingRecord) (nenv : NEnv) (nrec : OutputRecord) :
    (env.metaReadOk = true → (transcribeAudio env tb b rec).uncaughtError = none) ∧
    (sendNotification nenv nrec).uncaughtError = none ∧
    (env.metaReadOk = true → env.submitOk = false → ¬ rec.name = "" → ¬ b = "" →
      VIDEO_EXTENSIONS.contains (extOf rec.name) = true →
      List.lookup "transcriptionStarted" rec.meta = none →
      (transcribeAudio env tb b rec).trace =
        [TEffect.submit ("gs://" ++ b ++ "/" ++ rec.name)
            ("gs://" ++ tb ++ "/" ++ rec.name ++ ".json"), TEffect.logErr] ∧
      markerCount (transcribeAudio env tb b rec).trace = 0) ∧
    (strEndsWith nrec.name ".json" = true → nenv.metaReadOk = true →
      List.lookup "notificationSent" nrec.meta = none → nenv.downloadOk = false →
      (sendNotification nenv nrec).trace = [NEffect.logErr] ∧
      nMarkerCount (sendNotification nenv nrec).trace = 0) := by
  refine ⟨fun hm => transcribeAudio_throws_iff env tb b rec hm,
    sendNotification_never_throws nenv nrec, ?_, ?_⟩
  · intro hm hs hn hb hv hmk
    have h := transcribeAudio_submit_fail env tb b rec hn hb hv hm hmk hs
    exact ⟨h.1, h.2.1⟩
  · intro hj hm hmk hd
    unfold sendNotification
    simp [hj, hm, hmk, hd]
    rfl

/-! ## Folder Scanner lemmas, C5 and C6 -/

/-- The conditional update of newestTime is the maximum. -/
theorem ite_gt_max (n c : Nat) : (if c > n then c else n) = max n c := by
  rw [Nat.max_def]; split_ifs <;> omega

/-- Unfolding scanFold over a cons. -/
theorem scanFold_cons (t : Nat) (f : PollFile) (fs : List PollFile) :
    scanFold t (f :: fs) = scanFold (max t f.createdTime) fs := rfl

/-- The fold never drops below its base. -/
theorem scanFold_ge (fs : List PollFile) : ∀ t : Nat, t ≤ scanFold t fs := by
  induction fs with
  | nil => intro t; exact Nat.le_refl t
  | cons f fs ih =>
    intro t
    rw [scanFold_cons]
    exact Nat.le_trans (Nat.le_max_left t f.createdTime) (ih _)

/-- The fold dominates the creation time of every listed file. -/
theorem scanFold_mem (f : PollFile) (fs : List PollFile) (hf : f ∈ fs) :
    ∀ t : Nat, f.createdTime ≤ scanFold t fs := by
  induction fs with
  | nil => cases hf
  | cons g fs ih =>
    intro t
    rcases List.mem_cons.mp hf with h | h
    · subst h
      rw [scanFold_cons]
      exact Nat.le_trans (Nat.le_max_right t f.createdTime) (scanFold_ge fs _)
    · rw [scanFold_cons]
      exact ih h _

/-- A loop that ran to completion computed exactly the fold maximum. -/
theorem pollLoop_ok_newest (tok : String → Bool) (b : String) :
    ∀ (fs : List PollFile) (n : Nat),
      (pollLoop tok b fs n).ok = true → (pollLoop tok b fs n).newest = scanFold n fs := by
  intro fs
  induction fs with
  | nil => intro n _; rfl
  | cons f fs ih =>
    intro n hok
    rw [scanFold_cons]
    unfold pollLoop at hok ⊢
    simp only [ite_gt_max] at hok ⊢
    split_ifs at hok ⊢ with h1 h2
    · exact ih _ hok
    · exact ih _ hok

/-- Every download the loop issues names a file of the listing that is not
over the duration ceiling. -/
theorem pollLoop_download_src (tok : String → Bool) (b : String) :
    ∀ (fs : List PollFile) (n : Nat) (i nm bk : String),
      PEffect.download i nm bk ∈ (pollLoop tok b fs n).trace →
      ∃ g ∈ fs, g.id = i ∧ overLimit g = false := by
  intro fs
  induction fs with
  | nil => intro n i nm bk h; simp [pollLoop] at h
  | cons f fs ih =>
    intro n i nm bk h
    unfold pollLoop at h
    simp only [ite_gt_max] at h
    split_ifs at h with h1 h2
    · obtain ⟨g, hg, hgi, hgl⟩ := ih _ _ _ _ h
      exact ⟨g, List.mem_cons_of_mem f hg, hgi, hgl⟩
    · rcases List.mem_cons.mp h with heq | hmem
      · obtain ⟨hi, hnm, hbk⟩ := PEffect.download.inj heq
        exact ⟨f, List.mem_cons_self f fs, hi.symm, by simpa using h1⟩
      · obtain ⟨g, hg, hgi, hgl⟩ := ih _ _ _ _ hmem
        exact ⟨g, List.mem_cons_of_mem f hg, hgi, hgl⟩
    · have heq := List.mem_singleton.mp h
      obtain ⟨hi, hnm, hbk⟩ := PEffect.download.inj heq
      exact ⟨f, List.mem_cons_self f fs, hi.symm, by simpa using h1⟩

/-- C5: a scan that completes successfully saves exactly the maximum of the
prior watermark and the creation times of every listed item, so the stored
watermark never decreases; a scan aborted by a listing or transfer error
answers 500 and leaves the stored watermark unchanged, as does an empty
listing. -/
theorem poller_watermark_invariant (env : PollEnv) (stored : Option Nat) :
    ((pollDrive env stored).status = 200 → ¬ env.files = [] →
      (pollDrive env stored).stored =
        some (scanFold (stored.getD env.defaultLookback) env.files) ∧
      stored.getD env.defaultLookback ≤
        scanFold (stored.getD env.defaultLookback) env.files) ∧
    ((pollDrive env stored).status = 500 → (pollDrive env stored).stored = stored) ∧
    (env.files = [] → (pollDrive env stored).stored = stored) := by
  unfold pollDrive
  split_ifs with h1 h2 h3 h4
  · exact ⟨fun hst => by simp at hst, fun _ => rfl, fun _ => rfl⟩
  · constructor
    · intro _ hne
      exact absurd (by simpa using h3) hne
    · exact ⟨fun hst => by simp at hst, fun _ => rfl⟩
  · constructor
    · intro _ _
      exact ⟨congrArg some (pollLoop_ok_newest _ _ _ _ h4), scanFold_ge env.files _⟩
    · constructor
      · intro hst; simp at hst
      · intro he; rw [he] at h3; simp at h3
  · exact ⟨fun hst => by simp at hst, fun _ => rfl, fun _ => rfl⟩
  · exact ⟨fun hst => by simp at hst, fun _ => rfl, fun _ => rfl⟩

/-- C6: an item whose declared duration exceeds the ceiling is never
downloaded by any scan, yet on a successful scan the saved watermark
dominates its creation time, so no later scan whose listing honours the
created-after-watermark query can return it again. -/
theorem poller_duration_skip (env : PollEnv) (stored : Option Nat) (f : PollFile)
    (hmem : f ∈ env.files) (hlim : overLimit f = true)
    (hid : ∀ g ∈ env.files, g.id = f.id → g = f) :
    (∀ nm bk : String, PEffect.download f.id nm bk ∉ (pollDrive env stored).trace) ∧
    ((pollDrive env stored).status = 200 →
      ∃ w : Nat, (pollDrive env stored).stored = some w ∧ f.createdTime ≤ w ∧
        ∀ env2 : PollEnv, (∀ g ∈ env2.files, w < g.createdTime) → f ∉ env2.files) := by
  have hdl : ∀ (n : Nat) (nm bk : String),
      PEffect.download f.id nm bk ∉
        (pollLoop env.transferOk (env.destBucket.getD "") env.files n).trace := by
    intro n nm bk h
    obtain ⟨g, hg, hgi, hgl⟩ := pollLoop_download_src _ _ _ _ _ _ _ h
    rw [hid g hg hgi] at hgl
    rw [hlim] at hgl
    cases hgl
  unfold pollDrive
  split_ifs with h1 h2 h3 h4
  · exact ⟨fun nm bk h => by simp at h, fun hst => by simp at hst⟩
  · exact absurd (by simpa using h3) (List.ne_nil_of_mem hmem)
  · refine ⟨?_, fun _ => ?_⟩
    · intro nm bk h
      rcases List.mem_append.mp h with hh | hh
      · exact hdl _ nm bk hh
      · simp at hh
    · refine ⟨_, rfl, ?_, ?_⟩
      · show f.createdTime ≤ (pollLoop env.transferOk (env.destBucket.getD "")
          env.files (stored.getD env.defaultLookback)).newest
        rw [pollLoop_ok_newest _ _ _ _ h4]
        exact scanFold_mem f env.files hmem _
      · intro env2 hq hf2
        have hlt := hq f hf2
        have hle : f.createdTime ≤
            (pollLoop env.transferOk (env.destBucket.getD "") env.files
              (stored.getD env.defaultLookback)).newest := by
          rw [pollLoop_ok_newest _ _ _ _ h4]
          exact scanFold_mem f env.files hmem _
        omega
  · refine ⟨?_, fun hst => by simp at hst⟩
    intro nm bk h
    rcases List.mem_append.mp h with hh | hh
    · exact hdl _ nm bk hh
    · simp at hh
  · exact ⟨fun nm bk h => by simp at h, fun hst => by simp at hst⟩

/-- A listed file over the three-hour ceiling and one under it. -/
def pfileLong : PollFile := ⟨"idL", "long.mp4", 9, some 10900000, []⟩

/-- A short file seen by the same scan. -/
def pfileShort : PollFile := ⟨"idS", "short.mp4", 5, some 60000, []⟩

/-- A scanner environment listing both fixtures with every transfer
succeeding. -/
def penvBoth : PollEnv :=
  ⟨some "folder", some "dest", true, [pfileShort, pfileLong], fun _ => true, 3⟩

/-- Witness for C6: the over-limit fixture is never downloaded and the
saved watermark passes its creation time. -/
theorem poller_duration_skip_witness :
    (∀ nm bk : String, PEffect.download pfileLong.id nm bk ∉
      (pollDrive penvBoth (some 4)).trace) ∧
    ((pollDrive penvBoth (some 4)).status = 200 →
      ∃ w : Nat, (pollDrive penvBoth (some 4)).stored = some w ∧
        pfileLong.createdTime ≤ w ∧
        ∀ env2 : PollEnv, (∀ g ∈ env2.files, w < g.createdTime) →
          pfileLong ∉ env2.files) :=
  poller_duration_skip penvBoth (some 4) pfileLong (by decide) (by decide)
    (by decide)

/-! ## Analysis & Notification Stage lemmas, C2 -/

/-- With the notificationSent marker present the handler does nothing
observable and leaves the record unchanged. -/
theorem sendNotification_marker_skip (env : NEnv) (rec : OutputRecord)
    (hmk : (List.lookup "notificationSent" rec.meta).isSome = true) :
    writeCount (sendNotification env rec).trace = 0 ∧
    sendCount (sendNotification env rec).trace = 0 ∧
    nMarkerCount (sendNotification env rec).trace = 0 ∧
    deleteCount (sendNotification env rec).trace = 0 ∧
    (sendNotification env rec).record = rec := by
  unfold sendNotification
  split_ifs <;>
    simp_all [writeCount, sendCount, nMarkerCount, deleteCount,
      isWrite, isSend, isNMarker, isDelete]

/-- C2: invoking the Analysis and Notification Stage on an Output Record
whose metadata already carries the notificationSent marker produces zero
artifact writes, zero notification sends, zero metadata writes and zero
source-item deletions, and leaves the record unchanged. -/
theorem notification_stage_marker_skip (env : NEnv) (rec : OutputRecord)
    (hjson : strEndsWith rec.name ".json" = true)
    (hmk : (List.lookup "notificationSent" rec.meta).isSome = true) :
    writeCount (sendNotification env rec).trace = 0 ∧
    sendCount (sendNotification env rec).trace = 0 ∧
    nMarkerCount (sendNotification env rec).trace = 0 ∧
    deleteCount (sendNotification env rec).trace = 0 ∧
    (sendNotification env rec).record = rec :=
  sendNotification_marker_skip env rec hmk

/-- Witness for C2 at the marked fixture. -/
theorem notification_stage_marker_skip_witness :
    writeCount (sendNotification nenvOk recNMarked).trace = 0 ∧
    sendCount (sendNotification nenvOk recNMarked).trace = 0 ∧
    nMarkerCount (sendNotification nenvOk recNMarked).trace = 0 ∧
    deleteCount (sendNotification nenvOk recNMarked).trace = 0 ∧
    (sendNotification nenvOk recNMarked).record = recNMarked :=
  notification_stage_marker_skip nenvOk recNMarked (by decide) (by decide)

/-- The resolution trace contains no model invocation. -/
theorem resolvePrompt_calls (env : NEnv) :
    analysisCalls (resolvePrompt env).2 = [] := by
  unfold resolvePrompt
  rcases env.gcsPrompt with _ | p <;> rcases env.folderId with _ | fid <;>
    simp [analysisCalls, callOf] <;> split_ifs <;> simp [analysisCalls, callOf]

/-- The model invocations of the analysis phase: exactly one when a truthy
prompt resolved, none otherwise. -/
theorem analysisPhase_calls (env : NEnv) :
    analysisCalls (analysisPhase env).2.2 =
      (match (resolvePrompt env).1 with
       | some p => if p ≠ "" then [(p, resolveModel env.gcsModel)] else []
       | none => []) := by
  have hres := resolvePrompt_calls env
  simp only [analysisCalls] at hres
  simp only [analysisPhase]
  rcases hp : (resolvePrompt env).1 with _ | p
  · simpa [analysisCalls] using hres
  · by_cases hne : p = ""
    · simpa [hne, analysisCalls] using hres
    · cases ha : env.analysisOk <;>
        simp [ha, hne, analysisCalls, List.filterMap_append, callOf, hres]

/-- The stage tail adds no model invocation to the trace. -/
theorem finishStage_calls (env : NEnv) (rec : OutputRecord)
    (base dur subject ebody tc : String) (analysisText : Option String)
    (model : String) (pre : List NEffect) :
    analysisCalls (finishStage env rec base dur subject ebody tc analysisText model pre).trace =
      analysisCalls pre := by
  unfold finishStage sendEmailOrSMS
  cases hb : env.inputBucket <;> cases hc : env.credsPresent <;>
    simp [hb, hc, analysisCalls, List.filterMap_append, callOf] <;>
    split_ifs <;> simp [callOf]

/-- The stage tail always records the transcript artifact write, and, when
credentials are present, the one mail send with the SYSTEM INFO footer. -/
theorem finishStage_mem (env : NEnv) (rec : OutputRecord)
    (base dur subject ebody tc : String) (analysisText : Option String)
    (model : String) (pre : List NEffect) :
    NEffect.artifactWrite (jsonReplace rec.name "_TRANSCRIPT.txt") tc ∈
      (finishStage env rec base dur subject ebody tc analysisText model pre).trace ∧
    (env.credsPresent = true → env.saveOk = true →
      ∃ atts, NEffect.emailSend subject (ebody ++ sysInfoSection env model) atts ∈
        (finishStage env rec base dur subject ebody tc analysisText model pre).trace) := by
  unfold finishStage sendEmailOrSMS
  constructor
  · cases hb : env.inputBucket <;> cases hc : env.credsPresent <;>
      simp [hb, hc] <;> split_ifs <;> simp
  · intro hc hs
    refine ⟨emailAtts tc (jsonReplace rec.name "_TRANSCRIPT.txt")
      (if jsTruthy analysisText then
        some (jsonReplace rec.name "_ANALYSIS.txt",
          analysisContentOf base dur env.now (analysisText.getD ""))
      else none), ?_⟩
    cases hb : env.inputBucket <;>
      simp [hb, hc, hs] <;> split_ifs <;> simp_all

/-! ## The sufficiency gate, C7 -/

/-- The split-piece count the code compares with ten and the word count of
the stripped transcript agree on the gate threshold. -/
theorem gate_lt_iff (s : String) : jsWordCount s < 10 ↔ wordsCount s ≤ 9 := by
  unfold jsWordCount
  split_ifs with h
  · subst h
    decide
  · omega

/-- speechOnly equals the strip-and-trim of the transcript with absent
rendered as the empty string. -/
theorem speechOnlyOf_eq (d : TranscriptData) :
    speechOnlyOf d = trimChars (stripLabels ((formatTranscript d).getD "")) := by
  unfold speechOnlyOf
  cases h : formatTranscript d <;> simp [h]
  decide

/-- The gate of the code holds exactly when the transcript is absent or its
stripped word count is at most nine. -/
theorem isInsufficient_iff (d : TranscriptData) :
    isInsufficient d = true ↔
      (formatTranscript d = none ∨
        wordsCount (trimChars (stripLabels ((formatTranscript d).getD ""))) ≤ 9) := by
  simp only [← speechOnlyOf_eq]
  unfold isInsufficient
  simp [Option.isNone_iff_eq_none, gate_lt_iff]

/-- The two subject lines of the stage differ on every record name. -/
theorem subject_lines_distinct (a b : String) :
    ("Transcript Empty / Failed: " ++ a) ≠
      ("[Drive Automation] Analysis & Transcript: " ++ b) := by
  intro h
  have hd := congrArg (fun s => s.data.head?) h
  simp [String.data_append] at hd

/-- On an unmarked record with a successful download, the handler reduces
to the insufficient-data branch when the gate holds. -/
theorem sendNotification_eq_insufficient (env : NEnv) (rec : OutputRecord)
    (hjson : strEndsWith rec.name ".json" = true)
    (hmeta : env.metaReadOk = true)
    (hmk : List.lookup "notificationSent" rec.meta = none)
    (hdl : env.downloadOk = true)
    (hib : isInsufficient env.transcriptData = true) :
    sendNotification env rec = finishStage env rec (jsonReplace rec.name "")
      (getVideoDuration env.transcriptData)
      ("Transcript Empty / Failed: " ++ jsonReplace rec.name "")
      (insufficientEmailBody (jsonReplace rec.name "")
        (getVideoDuration env.transcriptData)
        (jsWordCount (speechOnlyOf env.transcriptData)))
      (insufficientTranscriptContent (jsonReplace rec.name "")
        (getVideoDuration env.transcriptData) env.now
        (jsWordCount (speechOnlyOf env.transcriptData)))
      none DEFAULT_MODEL [] := by
  unfold sendNotification
  simp [hjson, hmeta, hmk, hdl, hib]

/-- On an unmarked record with a successful download, the handler reduces
to the analysis branch when the gate fails. -/
theorem sendNotification_eq_normal (env : NEnv) (rec : OutputRecord)
    (hjson : strEndsWith rec.name ".json" = true)
    (hmeta : env.metaReadOk = true)
    (hmk : List.lookup "notificationSent" rec.meta = none)
    (hdl : env.downloadOk = true)
    (hib : isInsufficient env.transcriptData = false) :
    sendNotification env rec = finishStage env rec (jsonReplace rec.name "")
      (getVideoDuration env.transcriptData)
      ("[Drive Automation] Analysis & Transcript: " ++ jsonReplace rec.name "")
      (normalEmailBody env (jsonReplace rec.name "")
        (getVideoDuration env.transcriptData) rec.name (analysisPhase env).1)
      (normalTranscriptContent (jsonReplace rec.name "")
        (getVideoDuration env.transcriptData) env.now
        ((formatTranscript env.transcriptData).getD ""))
      (analysisPhase env).1 (analysisPhase env).2.1 (analysisPhase env).2.2 := by
  unfold sendNotification
  simp [hjson, hmeta, hmk, hdl, hib]

/-- After a successful save and a send that either was skipped for missing
credentials or succeeded, the stage tail sets the marker, updates the
record, and issues the best-effort delete when an input bucket is
configured. -/
theorem finishStage_tail (env : NEnv) (rec : OutputRecord)
    (base dur subject ebody tc : String) (analysisText : Option String)
    (model : String) (pre : List NEffect)
    (hsave : env.saveOk = true)
    (hok : env.credsPresent = false ∨ env.sendOk = true) :
    (finishStage env rec base dur subject ebody tc analysisText model pre).record =
      { rec with meta := metaUpsert rec.meta "notificationSent" env.now } ∧
    NEffect.setMarker env.now ∈
      (finishStage env rec base dur subject ebody tc analysisText model pre).trace ∧
    (∀ b : String, env.inputBucket = some b →
      NEffect.deleteSource b base ∈
        (finishStage env rec base dur subject ebody tc analysisText model pre).trace) := by
  unfold finishStage sendEmailOrSMS
  rcases hok with hc | hs <;>
    cases hb : env.inputBucket <;>
    simp_all <;> split_ifs <;> simp_all

/-- With credentials absent the stage tail sends nothing. -/
theorem finishStage_no_send (env : NEnv) (rec : OutputRecord)
    (base dur subject ebody tc : String) (analysisText : Option String)
    (model : String) (pre : List NEffect)
    (hcreds : env.credsPresent = false) :
    sendCount (finishStage env rec base dur subject ebody tc analysisText model pre).trace =
      sendCount pre := by
  unfold finishStage sendEmailOrSMS
  cases hb : env.inputBucket <;>
    simp_all [sendCount, isSend, List.countP_append, List.countP_cons] <;>
    split_ifs <;>
    simp_all [sendCount, isSend, List.countP_append, List.countP_cons]

/-- When analysis text was produced (truthy), the stage tail writes the
analysis artifact after a successful save. -/
theorem finishStage_analysis_write (env : NEnv) (rec : OutputRecord)
    (base dur subject ebody tc : String) (analysisText : Option String)
    (model : String) (pre : List NEffect)
    (hsave : env.saveOk = true) (hat : jsTruthy analysisText = true) :
    NEffect.artifactWrite (jsonReplace rec.name "_ANALYSIS.txt")
        (analysisContentOf base dur env.now (analysisText.getD "")) ∈
      (finishStage env rec base dur subject ebody tc analysisText model pre).trace := by
  unfold finishStage sendEmailOrSMS
  cases hb : env.inputBucket <;> cases hc : env.credsPresent <;>
    simp_all <;> split_ifs <;> simp_all

/-- When no analysis text was produced, the stage tail adds exactly one
artifact write, the transcript. -/
theorem finishStage_write_count (env : NEnv) (rec : OutputRecord)
    (base dur subject ebody tc : String) (analysisText : Option String)
    (model : String) (pre : List NEffect)
    (hat : jsTruthy analysisText = false) :
    writeCount (finishStage env rec base dur subject ebody tc analysisText model pre).trace =
      writeCount pre + 1 := by
  unfold finishStage sendEmailOrSMS
  cases hb : env.inputBucket <;> cases hc : env.credsPresent <;>
    simp_all [writeCount, isWrite, List.countP_append, List.countP_cons] <;>
    split_ifs <;>
    simp_all [writeCount, isWrite, List.countP_append, List.countP_cons]

/-- C7: when the transcript is absent or at most nine words remain after
stripping the timestamp labels, the stage skips AI analysis and produces
the distinct insufficient-data transcript artifact and the distinct
empty-failed mail subject and body; with ten or more words it takes the
normal path, issuing the analysis call exactly when a prompt resolves; the
two subject lines are distinct for every name. -/
theorem sufficiency_gate_routes (env : NEnv) (rec : OutputRecord)
    (hjson : strEndsWith rec.name ".json" = true)
    (hmeta : env.metaReadOk = true)
    (hmk : List.lookup "notificationSent" rec.meta = none)
    (hdl : env.downloadOk = true)
    (hsave : env.saveOk = true)
    (hcreds : env.credsPresent = true) :
    ((formatTranscript env.transcriptData = none ∨
        wordsCount (trimChars (stripLabels
          ((formatTranscript env.transcriptData).getD ""))) ≤ 9) →
      analysisCalls (sendNotification env rec).trace = [] ∧
      NEffect.artifactWrite (jsonReplace rec.name "_TRANSCRIPT.txt")
          (insufficientTranscriptContent (jsonReplace rec.name "")
            (getVideoDuration env.transcriptData) env.now
            (jsWordCount (speechOnlyOf env.transcriptData))) ∈
        (sendNotification env rec).trace ∧
      (∃ atts, NEffect.emailSend
          ("Transcript Empty / Failed: " ++ jsonReplace rec.name "")
          (insufficientEmailBody (jsonReplace rec.name "")
            (getVideoDuration env.transcriptData)
            (jsWordCount (speechOnlyOf env.transcriptData)) ++
            sysInfoSection env DEFAULT_MODEL) atts ∈
        (sendNotification env rec).trace)) ∧
    ((¬ formatTranscript env.transcriptData = none ∧
        10 ≤ wordsCount (trimChars (stripLabels
          ((formatTranscript env.transcriptData).getD "")))) →
      (∃ atts, NEffect.emailSend
          ("[Drive Automation] Analysis & Transcript: " ++ jsonReplace rec.name "")
          (normalEmailBody env (jsonReplace rec.name "")
            (getVideoDuration env.transcriptData) rec.name (analysisPhase env).1 ++
            sysInfoSection env (analysisPhase env).2.1) atts ∈
        (sendNotification env rec).trace) ∧
      analysisCalls (sendNotification env rec).trace =
        analysisCalls (analysisPhase env).2.2 ∧
      (jsTruthy (resolvePrompt env).1 = true →
        ¬ analysisCalls (sendNotification env rec).trace = [])) ∧
    (∀ a b : String, ("Transcript Empty / Failed: " ++ a) ≠
        ("[Drive Automation] Analysis & Transcript: " ++ b)) := by
  refine ⟨?_, ?_, subject_lines_distinct⟩
  · intro hg
    have hib : isInsufficient env.transcriptData = true := (isInsufficient_iff _).mpr hg
    rw [sendNotification_eq_insufficient env rec hjson hmeta hmk hdl hib]
    refine ⟨?_, ?_, ?_⟩
    · rw [finishStage_calls]
      rfl
    · exact (finishStage_mem env rec _ _ _ _ _ _ _ _).1
    · exact (finishStage_mem env rec _ _ _ _ _ _ _ _).2 hcreds hsave
  · intro hg
    have hib : isInsufficient env.transcriptData = false := by
      rcases Bool.eq_false_or_eq_true (isInsufficient env.transcriptData) with h | h
      · rcases (isInsufficient_iff _).mp h with h2 | h2
        · exact absurd h2 hg.1
        · omega
      · exact h
    rw [sendNotification_eq_normal env rec hjson hmeta hmk hdl hib]
    refine ⟨?_, ?_, ?_⟩
    · exact (finishStage_mem env rec _ _ _ _ _ _ _ _).2 hcreds hsave
    · exact finishStage_calls env rec _ _ _ _ _ _ _ _
    · intro htr
      rw [finishStage_calls, analysisPhase_calls]
      rcases hp : (resolvePrompt env).1 with _ | p
      · rw [hp] at htr; exact absurd htr (by decide)
      · rw [hp] at htr
        simp only [jsTruthy] at htr
        have hne : ¬ p = "" := of_decide_eq_true htr
        simp [hne]

/-- Witness for C7: the sufficient fixture takes the normal path with one
analysis call, and the silent fixture is routed to the insufficient path. -/
theorem sufficiency_gate_routes_witness :
    ((formatTranscript nenvOk.transcriptData = none ∨
        wordsCount (trimChars (stripLabels
          ((formatTranscript nenvOk.transcriptData).getD ""))) ≤ 9) →
      analysisCalls (sendNotification nenvOk recNJson).trace = [] ∧
      NEffect.artifactWrite (jsonReplace recNJson.name "_TRANSCRIPT.txt")
          (insufficientTranscriptContent (jsonReplace recNJson.name "")
            (getVideoDuration nenvOk.transcriptData) nenvOk.now
            (jsWordCount (speechOnlyOf nenvOk.transcriptData))) ∈
        (sendNotification nenvOk recNJson).trace ∧
      (∃ atts, NEffect.emailSend
          ("Transcript Empty / Failed: " ++ jsonReplace recNJson.name "")
          (insufficientEmailBody (jsonReplace recNJson.name "")
            (getVideoDuration nenvOk.transcriptData)
            (jsWordCount (speechOnlyOf nenvOk.transcriptData)) ++
            sysInfoSection nenvOk DEFAULT_MODEL) atts ∈
        (sendNotification nenvOk recNJson).trace)) ∧
    ((¬ formatTranscript nenvOk.transcriptData = none ∧
        10 ≤ wordsCount (trimChars (stripLabels
          ((formatTranscript nenvOk.transcriptData).getD "")))) →
      (∃ atts, NEffect.emailSend
          ("[Drive Automation] Analysis & Transcript: " ++ jsonReplace recNJson.name "")
          (normalEmailBody nenvOk (jsonReplace recNJson.name "")
            (getVideoDuration nenvOk.transcriptData) recNJson.name
            (analysisPhase nenvOk).1 ++
            sysInfoSection nenvOk (analysisPhase nenvOk).2.1) atts ∈
        (sendNotification nenvOk recNJson).trace) ∧
      analysisCalls (sendNotification nenvOk recNJson).trace =
        analysisCalls (analysisPhase nenvOk).2.2 ∧
      (jsTruthy (resolvePrompt nenvOk).1 = true →
        ¬ analysisCalls (sendNotification nenvOk recNJson).trace = [])) ∧
    (∀ a b : String, ("Transcript Empty / Failed: " ++ a) ≠
        ("[Drive Automation] Analysis & Transcript: " ++ b)) :=
  sufficiency_gate_routes nenvOk recNJson (by decide) rfl rfl rfl rfl rfl

/-! ## Configuration resolution, C8 -/

/-- The stage tail adds no Drive prompt search to the trace. -/
theorem finishStage_searches (env : NEnv) (rec : OutputRecord)
    (base dur subject ebody tc : String) (analysisText : Option String)
    (model : String) (pre : List NEffect) :
    driveSearchCount
        (finishStage env rec base dur subject ebody tc analysisText model pre).trace =
      driveSearchCount pre := by
  unfold finishStage sendEmailOrSMS
  cases hb : env.inputBucket <;> cases hc : env.credsPresent <;>
    simp_all [driveSearchCount, isDriveSearch, List.countP_append, List.countP_cons] <;>
    split_ifs <;>
    simp_all [driveSearchCount, isDriveSearch, List.countP_append, List.countP_cons]

/-- A non-empty central override resolves to its trimmed content with no
Drive search. -/
theorem resolvePrompt_central (env : NEnv) (p : String)
    (hp : env.gcsPrompt = some p) (hne : ¬ trimChars p = "") :
    resolvePrompt env = (some (trimChars p), []) := by
  unfold resolvePrompt
  rw [hp]
  simp [hne]

/-- An absent or blank central override falls back to the Drive search when
the watched folder is configured. -/
theorem resolvePrompt_fallback (env : NEnv) (fid : String)
    (hp : env.gcsPrompt = none ∨ ∃ p, env.gcsPrompt = some p ∧ trimChars p = "")
    (hf : env.folderId = some fid) :
    resolvePrompt env = (env.drivePrompt, [NEffect.driveSearch fid]) := by
  unfold resolvePrompt
  rcases hp with h | ⟨p, hgp, he⟩
  · rw [h, hf]
  · rw [hgp, hf]
    simp [he]

/-- With a truthy resolved prompt the analysis phase issues exactly one
model call carrying that prompt and the resolved model. -/
theorem analysisPhase_of_prompt (env : NEnv) (p : String)
    (hp : (resolvePrompt env).1 = some p) (hne : ¬ p = "") :
    (analysisPhase env).2.2 =
      (resolvePrompt env).2 ++
        [NEffect.analysisCall p (resolveModel env.gcsModel)] ∧
    (analysisPhase env).2.1 = resolveModel env.gcsModel ∧
    (analysisPhase env).1 = some (if env.analysisOk = true then env.analysisResult
      else "[Error during AI Analysis: " ++ env.analysisErrMsg ++ "]") := by
  simp only [analysisPhase]
  rw [hp]
  cases ha : env.analysisOk <;> simp [hne, ha]

/-- C8: a non-empty centrally-stored prompt always wins and the folder
search is not consulted; the folder search is consulted only with the
central override absent or blank, and its result is used; when neither
yields a truthy prompt no analysis call is made and no default prompt is
substituted; the model is the trimmed central identifier when non-empty and
the fixed default otherwise, independently of the prompt. -/
theorem prompt_model_resolution (env : NEnv) (rec : OutputRecord)
    (hjson : strEndsWith rec.name ".json" = true)
    (hmeta : env.metaReadOk = true)
    (hmk : List.lookup "notificationSent" rec.meta = none)
    (hdl : env.downloadOk = true)
    (hib : isInsufficient env.transcriptData = false) :
    (∀ p, env.gcsPrompt = some p → ¬ trimChars p = "" →
      analysisCalls (sendNotification env rec).trace =
        [(trimChars p, resolveModel env.gcsModel)] ∧
      driveSearchCount (sendNotification env rec).trace = 0) ∧
    ((env.gcsPrompt = none ∨ ∃ p, env.gcsPrompt = some p ∧ trimChars p = "") →
      ∀ fid dp, env.folderId = some fid → env.drivePrompt = some dp → ¬ dp = "" →
        analysisCalls (sendNotification env rec).trace =
          [(dp, resolveModel env.gcsModel)] ∧
        driveSearchCount (sendNotification env rec).trace = 1) ∧
    (((resolvePrompt env).1 = none ∨ (resolvePrompt env).1 = some "") →
      analysisCalls (sendNotification env rec).trace = []) ∧
    (∀ m, env.gcsModel = some m → ¬ trimChars m = "" →
      resolveModel env.gcsModel = trimChars m) ∧
    (∀ m, env.gcsModel = some m → trimChars m = "" →
      resolveModel env.gcsModel = DEFAULT_MODEL) ∧
    (env.gcsModel = none → resolveModel env.gcsModel = DEFAULT_MODEL) := by
  rw [sendNotification_eq_normal env rec hjson hmeta hmk hdl hib]
  rw [finishStage_calls, finishStage_searches, analysisPhase_calls]
  refine ⟨?_, ?_, ?_, ?_, ?_, ?_⟩
  · intro p hp hne
    rw [resolvePrompt_central env p hp hne]
    constructor
    · simp [hne]
    · rw [(analysisPhase_of_prompt env (trimChars p)
        (by rw [resolvePrompt_central env p hp hne]) hne).1]
      rw [resolvePrompt_central env p hp hne]
      simp [driveSearchCount, isDriveSearch, List.countP_append, List.countP_cons, callOf]
  · intro hp fid dp hf hdp hne
    rw [resolvePrompt_fallback env fid hp hf, hdp]
    constructor
    · simp [hne]
    · rw [(analysisPhase_of_prompt env dp
        (by rw [resolvePrompt_fallback env fid hp hf, hdp]) hne).1]
      rw [resolvePrompt_fallback env fid hp hf]
      simp [driveSearchCount, isDriveSearch, List.countP_append, List.countP_cons, callOf]
  · intro hp
    rcases hp with h | h <;> rw [h] <;> simp
  · intro m hm hne
    unfold resolveModel
    rw [hm]
    simp [hne]
  · intro m hm he
    unfold resolveModel
    rw [hm]
    simp [he]
  · intro hm
    unfold resolveModel
    rw [hm]

/-- Witness for C8 at the central-prompt fixture. -/
theorem prompt_model_resolution_witness :
    (∀ p, nenvOk.gcsPrompt = some p → ¬ trimChars p = "" →
      analysisCalls (sendNotification nenvOk recNJson).trace =
        [(trimChars p, resolveModel nenvOk.gcsModel)] ∧
      driveSearchCount (sendNotification nenvOk recNJson).trace = 0) ∧
    ((nenvOk.gcsPrompt = none ∨ ∃ p, nenvOk.gcsPrompt = some p ∧ trimChars p = "") →
      ∀ fid dp, nenvOk.folderId = some fid → nenvOk.drivePrompt = some dp → ¬ dp = "" →
        analysisCalls (sendNotification nenvOk recNJson).trace =
          [(dp, resolveModel nenvOk.gcsModel)] ∧
        driveSearchCount (sendNotification nenvOk recNJson).trace = 1) ∧
    (((resolvePrompt nenvOk).1 = none ∨ (resolvePrompt nenvOk).1 = some "") →
      analysisCalls (sendNotification nenvOk recNJson).trace = []) ∧
    (∀ m, nenvOk.gcsModel = some m → ¬ trimChars m = "" →
      resolveModel nenvOk.gcsModel = trimChars m) ∧
    (∀ m, nenvOk.gcsModel = some m → trimChars m = "" →
      resolveModel nenvOk.gcsModel = DEFAULT_MODEL) ∧
    (nenvOk.gcsModel = none → resolveModel nenvOk.gcsModel = DEFAULT_MODEL) :=
  prompt_model_resolution nenvOk recNJson (by decide) rfl rfl rfl (by decide)

/-! ## Analysis failure handling, C9 -/

/-- A string with a non-empty right component is non-empty. -/
theorem append_ne_empty_right (s t : String) (ht : ¬ t.data = []) :
    ¬ (s ++ t) = "" := by
  intro h
  apply ht
  have hd : s.data ++ t.data = ([] : List Char) := by
    have := congrArg String.data h
    rwa [String.data_append] at this
  exact (List.append_eq_nil.mp hd).2

/-- The visible analysis-error string is never empty. -/
theorem err_string_ne_empty (msg : String) :
    ¬ ("[Error during AI Analysis: " ++ msg ++ "]") = "" :=
  append_ne_empty_right _ "]" (by decide)

/-- The analysis phase writes no artifact, sends nothing, writes no marker
and deletes nothing. -/
theorem analysisPhase_other_counts (env : NEnv) :
    writeCount (analysisPhase env).2.2 = 0 ∧
    sendCount (analysisPhase env).2.2 = 0 ∧
    nMarkerCount (analysisPhase env).2.2 = 0 ∧
    deleteCount (analysisPhase env).2.2 = 0 := by
  simp only [analysisPhase, resolvePrompt]
  rcases env.gcsPrompt with _ | p <;> rcases env.folderId with _ | fid <;>
    (try rcases env.drivePrompt with _ | dp) <;>
    (try simp only [Option.getD]) <;>
    (try split_ifs) <;>
    simp [writeCount, sendCount, nMarkerCount, deleteCount, isWrite, isSend,
      isNMarker, isDelete, List.countP_append, List.countP_cons] <;>
    (try split_ifs) <;>
    simp_all [writeCount, sendCount, nMarkerCount, deleteCount, isWrite, isSend,
      isNMarker, isDelete, List.countP_append, List.countP_cons]

/-- Looking up the freshly upserted marker key. -/
theorem lookup_metaUpsert (m : List (String × String)) (k v : String) :
    List.lookup k (metaUpsert m k v) = some v := by
  simp [metaUpsert, List.lookup]

/-- C9: when the model call fails on a sufficient transcript with a
resolved truthy prompt, the analysis text becomes the visible error string,
and the stage still writes the Transcript Text Record, writes the Analysis
Text Record carrying the error string, sends the notification mail, sets
the marker and returns normally; and in general the Analysis Text Record
is written only when analysis text was produced. -/
theorem analysis_failure_nonfatal (env : NEnv) (rec : OutputRecord) (p : String)
    (hjson : strEndsWith rec.name ".json" = true)
    (hmeta : env.metaReadOk = true)
    (hmk : List.lookup "notificationSent" rec.meta = none)
    (hdl : env.downloadOk = true)
    (hib : isInsufficient env.transcriptData = false)
    (hp : (resolvePrompt env).1 = some p) (hpne : ¬ p = "")
    (hfail : env.analysisOk = false)
    (hsave : env.saveOk = true)
    (hcreds : env.credsPresent = true)
    (hsendok : env.sendOk = true) :
    (analysisPhase env).1 =
      some ("[Error during AI Analysis: " ++ env.analysisErrMsg ++ "]") ∧
    NEffect.artifactWrite (jsonReplace rec.name "_TRANSCRIPT.txt")
        (normalTranscriptContent (jsonReplace rec.name "")
          (getVideoDuration env.transcriptData) env.now
          ((formatTranscript env.transcriptData).getD "")) ∈
      (sendNotification env rec).trace ∧
    NEffect.artifactWrite (jsonReplace rec.name "_ANALYSIS.txt")
        (analysisContentOf (jsonReplace rec.name "")
          (getVideoDuration env.transcriptData) env.now
          ("[Error during AI Analysis: " ++ env.analysisErrMsg ++ "]")) ∈
      (sendNotification env rec).trace ∧
    (∃ atts, NEffect.emailSend
        ("[Drive Automation] Analysis & Transcript: " ++ jsonReplace rec.name "")
        (normalEmailBody env (jsonReplace rec.name "")
          (getVideoDuration env.transcriptData) rec.name (analysisPhase env).1 ++
          sysInfoSection env (analysisPhase env).2.1) atts ∈
      (sendNotification env rec).trace) ∧
    NEffect.setMarker env.now ∈ (sendNotification env rec).trace ∧
    (sendNotification env rec).record =
      { rec with meta := metaUpsert rec.meta "notificationSent" env.now } ∧
    (sendNotification env rec).uncaughtError = none ∧
    (∀ env2 rec2 : _, jsTruthy (analysisPhase env2).1 = false →
      strEndsWith rec2.name ".json" = true → env2.metaReadOk = true →
      List.lookup "notificationSent" rec2.meta = none → env2.downloadOk = true →
      isInsufficient env2.transcriptData = false →
      writeCount (sendNotification env2 rec2).trace = 1) := by
  have hap := analysisPhase_of_prompt env p hp hpne
  have herr : (analysisPhase env).1 =
      some ("[Error during AI Analysis: " ++ env.analysisErrMsg ++ "]") := by
    rw [hap.2.2, hfail]
    simp
  have htruthy : jsTruthy (analysisPhase env).1 = true := by
    rw [herr]
    simp [jsTruthy, err_string_ne_empty]
  refine ⟨herr, ?_, ?_, ?_, ?_, ?_, ?_, ?_⟩
  · rw [sendNotification_eq_normal env rec hjson hmeta hmk hdl hib]
    exact (finishStage_mem env rec _ _ _ _ _ _ _ _).1
  · rw [sendNotification_eq_normal env rec hjson hmeta hmk hdl hib]
    simpa [herr] using
      finishStage_analysis_write env rec _ _ _ _ _ _ _ _ hsave htruthy
  · rw [sendNotification_eq_normal env rec hjson hmeta hmk hdl hib]
    exact (finishStage_mem env rec _ _ _ _ _ _ _ _).2 hcreds hsave
  · rw [sendNotification_eq_normal env rec hjson hmeta hmk hdl hib]
    exact (finishStage_tail env rec _ _ _ _ _ _ _ _ hsave (Or.inr hsendok)).2.1
  · rw [sendNotification_eq_normal env rec hjson hmeta hmk hdl hib]
    exact (finishStage_tail env rec _ _ _ _ _ _ _ _ hsave (Or.inr hsendok)).1
  · exact sendNotification_never_throws env rec
  · intro env2 rec2 hat hjson2 hmeta2 hmk2 hdl2 hib2
    rw [sendNotification_eq_normal env2 rec2 hjson2 hmeta2 hmk2 hdl2 hib2]
    rw [finishStage_write_count env2 rec2 _ _ _ _ _ _ _ _ hat]
    rw [(analysisPhase_other_counts env2).1]

/-- The all-success environment with a failing model call. -/
def nenvAnalysisFail : NEnv := { nenvOk with analysisOk := false }

/-- Witness for C9 at the failing-analysis fixture. -/
theorem analysis_failure_nonfatal_witness :
    (analysisPhase nenvAnalysisFail).1 =
      some ("[Error during AI Analysis: " ++ nenvAnalysisFail.analysisErrMsg ++ "]") ∧
    NEffect.artifactWrite (jsonReplace recNJson.name "_TRANSCRIPT.txt")
        (normalTranscriptContent (jsonReplace recNJson.name "")
          (getVideoDuration nenvAnalysisFail.transcriptData) nenvAnalysisFail.now
          ((formatTranscript nenvAnalysisFail.transcriptData).getD "")) ∈
      (sendNotification nenvAnalysisFail recNJson).trace ∧
    NEffect.artifactWrite (jsonReplace recNJson.name "_ANALYSIS.txt")
        (analysisContentOf (jsonReplace recNJson.name "")
          (getVideoDuration nenvAnalysisFail.transcriptData) nenvAnalysisFail.now
          ("[Error during AI Analysis: " ++ nenvAnalysisFail.analysisErrMsg ++ "]")) ∈
      (sendNotification nenvAnalysisFail recNJson).trace ∧
    (∃ atts, NEffect.emailSend
        ("[Drive Automation] Analysis & Transcript: " ++ jsonReplace recNJson.name "")
        (normalEmailBody nenvAnalysisFail (jsonReplace recNJson.name "")
          (getVideoDuration nenvAnalysisFail.transcriptData) recNJson.name
          (analysisPhase nenvAnalysisFail).1 ++
          sysInfoSection nenvAnalysisFail (analysisPhase nenvAnalysisFail).2.1) atts ∈
      (sendNotification nenvAnalysisFail recNJson).trace) ∧
    NEffect.setMarker nenvAnalysisFail.now ∈
      (sendNotification nenvAnalysisFail recNJson).trace ∧
    (sendNotification nenvAnalysisFail recNJson).record =
      { recNJson with
        meta := metaUpsert recNJson.meta "notificationSent" nenvAnalysisFail.now } ∧
    (sendNotification nenvAnalysisFail recNJson).uncaughtError = none ∧
    (∀ env2 rec2 : _, jsTruthy (analysisPhase env2).1 = false →
      strEndsWith rec2.name ".json" = true → env2.metaReadOk = true →
      List.lookup "notificationSent" rec2.meta = none → env2.downloadOk = true →
      isInsufficient env2.transcriptData = false →
      writeCount (sendNotification env2 rec2).trace = 1) :=
  analysis_failure_nonfatal nenvAnalysisFail recNJson "Summarize."
    (by decide) rfl rfl rfl (by decide) (by decide) (by decide) rfl rfl rfl rfl

/-! ## Missing mail credentials, C10 -/

/-- C10: with any mail credential unset the stage delivers no mail, yet
still writes the transcript artifact, sets the notificationSent marker on
the record and issues the source delete, and every later invocation on the
resulting record is a complete no-op. -/
theorem missing_creds_still_terminal (env env2 : NEnv) (rec : OutputRecord)
    (bkt : String)
    (hjson : strEndsWith rec.name ".json" = true)
    (hmeta : env.metaReadOk = true)
    (hmk : List.lookup "notificationSent" rec.meta = none)
    (hdl : env.downloadOk = true)
    (hsave : env.saveOk = true)
    (hcreds : env.credsPresent = false)
    (hb : env.inputBucket = some bkt) :
    sendCount (sendNotification env rec).trace = 0 ∧
    (∃ c, NEffect.artifactWrite (jsonReplace rec.name "_TRANSCRIPT.txt") c ∈
      (sendNotification env rec).trace) ∧
    List.lookup "notificationSent" (sendNotification env rec).record.meta =
      some env.now ∧
    NEffect.deleteSource bkt (jsonReplace rec.name "") ∈
      (sendNotification env rec).trace ∧
    writeCount (sendNotification env2 (sendNotification env rec).record).trace = 0 ∧
    sendCount (sendNotification env2 (sendNotification env rec).record).trace = 0 ∧
    nMarkerCount (sendNotification env2 (sendNotification env rec).record).trace = 0 ∧
    deleteCount (sendNotification env2 (sendNotification env rec).record).trace = 0 := by
  have hterm :
      sendCount (sendNotification env rec).trace = 0 ∧
      (∃ c, NEffect.artifactWrite (jsonReplace rec.name "_TRANSCRIPT.txt") c ∈
        (sendNotification env rec).trace) ∧
      (sendNotification env rec).record =
        { rec with meta := metaUpsert rec.meta "notificationSent" env.now } ∧
      NEffect.deleteSource bkt (jsonReplace rec.name "") ∈
        (sendNotification env rec).trace := by
    cases hib : isInsufficient env.transcriptData
    · rw [sendNotification_eq_normal env rec hjson hmeta hmk hdl hib]
      refine ⟨?_, ⟨_, (finishStage_mem env rec _ _ _ _ _ _ _ _).1⟩,
        (finishStage_tail env rec _ _ _ _ _ _ _ _ hsave (Or.inl hcreds)).1,
        (finishStage_tail env rec _ _ _ _ _ _ _ _ hsave (Or.inl hcreds)).2.2 bkt hb⟩
      rw [finishStage_no_send env rec _ _ _ _ _ _ _ _ hcreds]
      exact (analysisPhase_other_counts env).2.1
    · rw [sendNotification_eq_insufficient env rec hjson hmeta hmk hdl hib]
      refine ⟨?_, ⟨_, (finishStage_mem env rec _ _ _ _ _ _ _ _).1⟩,
        (finishStage_tail env rec _ _ _ _ _ _ _ _ hsave (Or.inl hcreds)).1,
        (finishStage_tail env rec _ _ _ _ _ _ _ _ hsave (Or.inl hcreds)).2.2 bkt hb⟩
      rw [finishStage_no_send env rec _ _ _ _ _ _ _ _ hcreds]
      rfl
  obtain ⟨hs0, hw, hrec, hdel⟩ := hterm
  have hlk : List.lookup "notificationSent" (sendNotification env rec).record.meta =
      some env.now := by
    rw [hrec]
    exact lookup_metaUpsert rec.meta "notificationSent" env.now
  have hm2 : (List.lookup "notificationSent"
      (sendNotification env rec).record.meta).isSome = true := by
    rw [hlk]; rfl
  obtain ⟨h1, h2, h3, h4, _⟩ :=
    sendNotification_marker_skip env2 (sendNotification env rec).record hm2
  exact ⟨hs0, hw, hlk, hdel, h1, h2, h3, h4⟩

/-- The all-success environment with the mail credentials unset. -/
def nenvNoCreds : NEnv := { nenvOk with credsPresent := false }

/-- Witness for C10 at the credential-less fixture. -/
theorem missing_creds_still_terminal_witness :
    sendCount (sendNotification nenvNoCreds recNJson).trace = 0 ∧
    (∃ c, NEffect.artifactWrite (jsonReplace recNJson.name "_TRANSCRIPT.txt") c ∈
      (sendNotification nenvNoCreds recNJson).trace) ∧
    List.lookup "notificationSent"
      (sendNotification nenvNoCreds recNJson).record.meta = some nenvNoCreds.now ∧
    NEffect.deleteSource "in-bucket" (jsonReplace recNJson.name "") ∈
      (sendNotification nenvNoCreds recNJson).trace ∧
    writeCount (sendNotification nenvOk
      (sendNotification nenvNoCreds recNJson).record).trace = 0 ∧
    sendCount (sendNotification nenvOk
      (sendNotification nenvNoCreds recNJson).record).trace = 0 ∧
    nMarkerCount (sendNotification nenvOk
      (sendNotification nenvNoCreds recNJson).record).trace = 0 ∧
    deleteCount (sendNotification nenvOk
      (sendNotification nenvNoCreds recNJson).record).trace = 0 :=
  missing_creds_still_terminal nenvNoCreds nenvOk recNJson "in-bucket"
    (by decide) rfl rfl rfl rfl rfl rfl
